import Mathlib

/-!
Shallow embedding of the AppMesh gateway-listener / TLS-certificate /
gateway-route core of this repository:

* `src/packages/@aws-cdk/aws-appmesh/lib/index.ts` (the
  `VirtualGatewayListener` family: `renderHealthCheck`, `renderTls`,
  the `HttpGatewayListener` / `Http2GatewayListener` /
  `GrpcGatewayListener` classes and their `bind`),
* `src/packages/@aws-cdk/aws-appmesh/lib/tls-certificate.ts`
  (`TlsCertificate`, `ACMTlsCertificate`, `FileTlsCertificate`),
* `src/packages/@aws-cdk/aws-appmesh/lib/gateway-route.ts`
  (`GatewayRouteBase.grantRead` / `grantWrite`,
  `GatewayRoute.fromGatewayRouteArn` / `fromGatewayRouteAttributes`).

TypeScript/JavaScript features are made explicit:

* `x || d` and `x ? x : d` use JS truthiness: `0` and the empty string
  are falsy, so they fall through to the default (`jsNumOr`,
  `jsStrTruthy`).
* `throw new Error(msg)` becomes `Except.error msg`.
* optional fields become `Option`; an omitted field and a field set to
  `undefined` are both `none`.
* the in-place assignment `tls.certificate = ...` in `renderTls` is
  modelled by state passing: `renderTls` returns the rendered property
  together with the post-call state of the caller-supplied `tls` object.
* reading a property off a value that does not have it (as happens when
  a raw ARN string is stored where an `ICertificate` object is
  expected) yields JS `undefined`, modelled as `none`
  (`AcmCertValue.certificateArnProp`).
-/

/-- The `Protocol` enum of `shared-interfaces.ts` (string enum
HTTP/HTTP2/GRPC/TCP). -/
inductive Protocol where
  | http
  | http2
  | grpc
  | tcp
deriving Repr, DecidableEq

/-- `cdk.Duration`: only millisecond contents matter to this core
(`toMilliseconds()` is the sole observation the embedded code makes). -/
structure Duration where
  millis : Nat
deriving Repr, DecidableEq

/-- `cdk.Duration.seconds(n)`. -/
def Duration.seconds (n : Nat) : Duration := ⟨n * 1000⟩

/-- `duration.toMilliseconds()`. -/
def Duration.toMilliseconds (d : Duration) : Nat := d.millis

/-- JS `x || d` on an optional number: `undefined` and `0` are falsy. -/
def jsNumOr (o : Option Nat) (d : Nat) : Nat :=
  match o with
  | some n => if n = 0 then d else n
  | none => d

/-- JS truthiness of an optional string: `undefined` and `""` are falsy. -/
def jsStrTruthy (o : Option String) : Bool :=
  match o with
  | some s => decide (s ≠ "")
  | none => false

/-- The user-facing `HealthCheck` interface of `shared-interfaces.ts`:
every field optional, exactly the fields `renderHealthCheck` reads. -/
structure HealthCheck where
  healthyThreshold : Option Nat := none
  interval : Option Duration := none
  path : Option String := none
  port : Option Nat := none
  protocol : Option Protocol := none
  timeout : Option Duration := none
  unhealthyThreshold : Option Nat := none
deriving Repr, DecidableEq

/-- `CfnVirtualGateway.VirtualGatewayHealthCheckPolicyProperty` as
populated by `renderHealthCheck` (the CFN shape). -/
structure VirtualGatewayHealthCheckPolicyProperty where
  healthyThreshold : Nat
  intervalMillis : Nat
  path : Option String
  port : Nat
  protocol : Protocol
  timeoutMillis : Nat
  unhealthyThreshold : Nat
deriving Repr, DecidableEq

/-- An `ICertificate` from `@aws-cdk/aws-certificatemanager`: the one
property this core reads is `certificateArn`. -/
structure ICertificate where
  certificateArn : String
deriving Repr, DecidableEq

/-- The runtime value stored in `ACMTlsCertificate.acmCertificate`.  The
declared type is `ICertificate`, but `renderTls` in
`index.ts` (virtual-gateway-listener) constructs the certificate with a
raw ARN string (`tls.certificate.attrArn`), so at runtime the field may
hold either an `ICertificate` object or a plain string. -/
inductive AcmCertValue where
  | str (arn : String)
  | cert (c : ICertificate)
deriving Repr, DecidableEq

/-- JS property access `value.certificateArn`: on an `ICertificate`
object it is the stored ARN; on a raw string it is `undefined`. -/
def AcmCertValue.certificateArnProp : AcmCertValue → Option String
  | .str _ => none
  | .cert c => some c.certificateArn

/-- `ACMTlsCertificate` (tls-certificate.ts): holds
`acmCertificate`. -/
structure ACMTlsCertificate where
  acmCertificate : AcmCertValue
deriving Repr, DecidableEq

/-- `FileTlsCertificate` (tls-certificate.ts): holds the two file
paths. -/
structure FileTlsCertificate where
  certificateChain : String
  privateKey : String
deriving Repr, DecidableEq

/-- The closed set of `TlsCertificate` subclasses declared in
`tls-certificate.ts`. -/
inductive TlsCertificate where
  | acm (c : ACMTlsCertificate)
  | file (c : FileTlsCertificate)
deriving Repr, DecidableEq

/-- The `acm: { certificateArn }` component of the CFN certificate
shapes.  `certificateArn` is `Option` because the runtime value can be
JS `undefined` (see `AcmCertValue.certificateArnProp`). -/
structure AcmCertificateShape where
  certificateArn : Option String
deriving Repr, DecidableEq

/-- The `file: { certificateChain, privateKey }` component of the CFN
certificate shapes. -/
structure FileCertificateShape where
  certificateChain : String
  privateKey : String
deriving Repr, DecidableEq

/-- `CfnVirtualGateway.VirtualGatewayListenerTlsCertificateProperty`:
optional `acm` and `file` members. -/
structure VirtualGatewayListenerTlsCertificateProperty where
  acm : Option AcmCertificateShape
  file : Option FileCertificateShape
deriving Repr, DecidableEq

/-- `CfnVirtualNode.ListenerTlsCertificateProperty`: structurally the
same optional `acm` / `file` members, a distinct CFN type. -/
structure ListenerTlsCertificateProperty where
  acm : Option AcmCertificateShape
  file : Option FileCertificateShape
deriving Repr, DecidableEq

/-- `TlsCertificateConfig` (tls-certificate.ts): both CFN shapes
produced by one `bind()`. -/
structure TlsCertificateConfig where
  virtualGatewayListenerTlsCertificate : VirtualGatewayListenerTlsCertificateProperty
  virtualNodeListenerTlsCertificate : ListenerTlsCertificateProperty
deriving Repr, DecidableEq

/-- `TlsCertificate.bind()`: `ACMTlsCertificate.bind` renders
`{acm: {certificateArn: this.acmCertificate.certificateArn}}` into both
shapes; `FileTlsCertificate.bind` renders
`{file: {certificateChain, privateKey}}` into both shapes. -/
def TlsCertificate.bind : TlsCertificate → TlsCertificateConfig
  | .acm c =>
    { virtualGatewayListenerTlsCertificate :=
        { acm := some { certificateArn := c.acmCertificate.certificateArnProp }
          file := none }
      virtualNodeListenerTlsCertificate :=
        { acm := some { certificateArn := c.acmCertificate.certificateArnProp }
          file := none } }
  | .file c =>
    { virtualGatewayListenerTlsCertificate :=
        { acm := none
          file := some { certificateChain := c.certificateChain
                         privateKey := c.privateKey } }
      virtualNodeListenerTlsCertificate :=
        { acm := none
          file := some { certificateChain := c.certificateChain
                         privateKey := c.privateKey } } }

/-- The `TlsMode` enum of `tls-certificate.ts`. -/
inductive TlsMode where
  | strict
  | permissive
  | disabled
deriving Repr, DecidableEq

/-- The runtime value of `tls.certificate` accepted by `renderTls`: a
`TlsCertificate` or a raw `CfnCertificate` (from `@aws-cdk/aws-acmpca`)
exposing `attrArn`. -/
inductive GatewayTlsCert where
  | tlsCert (c : TlsCertificate)
  | cfnCertificate (attrArn : String)
deriving Repr, DecidableEq

/-- `IListenerTlsConfig` (declared in `virtual-node-listener.ts`, not
under src/; its fields are taken exactly from their uses in
`renderTls`): a certificate and a TLS mode. -/
structure IListenerTlsConfig where
  certificate : GatewayTlsCert
  mode : TlsMode
deriving Repr, DecidableEq

/-- `CfnVirtualGateway.VirtualGatewayListenerTlsProperty` as populated
by `renderTls`. -/
structure VirtualGatewayListenerTlsProperty where
  certificate : VirtualGatewayListenerTlsCertificateProperty
  mode : TlsMode
deriving Repr, DecidableEq

namespace VirtualGatewayListener

/-- `VirtualGatewayListener.isAcmCertificate`: `true` iff
`(cert as CfnCertificate).attrArn !== undefined`, i.e. iff the value is
the raw `CfnCertificate` (a `TlsCertificate` has no `attrArn`). -/
def isAcmCertificate : GatewayTlsCert → Bool
  | .tlsCert _ => false
  | .cfnCertificate _ => true

/-- `VirtualGatewayListener.renderHealthCheck(hc)` with the listener's
own `this.protocol` and `this.port` passed explicitly.  The two throws
come first; then the record of lines 148-156 is built with JS
truthiness defaulting.  (The trailing `validateHealthChecks` call is
external bound checking, see `validateHealthChecks` below.) -/
def renderHealthCheck (hc : HealthCheck) (thisProtocol : Protocol)
    (thisPort : Nat) :
    Except String VirtualGatewayHealthCheckPolicyProperty :=
  if hc.protocol = some Protocol.tcp then
    .error "TCP health checks are not permitted for gateway listeners"
  else if hc.protocol = some Protocol.grpc ∧ jsStrTruthy hc.path then
    .error "The path property cannot be set with Protocol.GRPC"
  else
    -- `const protocol = hc.protocol ? hc.protocol : this.protocol`
    -- (Protocol enum values are non-empty strings, hence truthy).
    let protocol := hc.protocol.getD thisProtocol
    .ok
      { healthyThreshold := jsNumOr hc.healthyThreshold 2
        intervalMillis :=
          ((hc.interval.getD (Duration.seconds 5)).toMilliseconds)
        path :=
          if jsStrTruthy hc.path then hc.path
          else if protocol = Protocol.http ∨ protocol = Protocol.http2 then
            some "/"
          else none
        port := jsNumOr hc.port thisPort
        protocol := hc.protocol.getD thisProtocol
        timeoutMillis :=
          ((hc.timeout.getD (Duration.seconds 2)).toMilliseconds)
        unhealthyThreshold := jsNumOr hc.unhealthyThreshold 2 }

/-- Modelled from the spec: `validateHealthChecks`
(`lib/private/utils.ts`, not under src/) is the "secondary structural
validation pass (threshold bounds ...)" of the spec.  The spec states
no concrete bounds and the function never alters the record, so it is
modelled as accepting every record; no claim settled here depends on
its bounds. -/
def validateHealthChecks (_hc : VirtualGatewayHealthCheckPolicyProperty) :
    Except String Unit :=
  .ok ()

/-- `VirtualGatewayListener.renderTls(tls)`.  The source first
normalises a raw `CfnCertificate` in place
(`tls.certificate = new AcmTlsCertificate({acmCertificate:
tls.certificate.attrArn})` - note: the ARN *string* becomes the
`acmCertificate` value), then returns
`{certificate: tls.certificate.bind(), mode: tls.mode}`.  The second
component of the result is the post-call state of the caller-supplied
`tls` object (the source mutates it). -/
def renderTls (tls : IListenerTlsConfig) :
    VirtualGatewayListenerTlsProperty × IListenerTlsConfig :=
  match tls.certificate with
  | .cfnCertificate arn =>
    let c : TlsCertificate := .acm { acmCertificate := .str arn }
    let tls2 : IListenerTlsConfig := { tls with certificate := .tlsCert c }
    ({ certificate := c.bind.virtualGatewayListenerTlsCertificate
       mode := tls2.mode }, tls2)
  | .tlsCert c =>
    ({ certificate := c.bind.virtualGatewayListenerTlsCertificate
       mode := tls.mode }, tls)

end VirtualGatewayListener

/-- `CfnVirtualGateway.VirtualGatewayPortMappingProperty`. -/
structure VirtualGatewayPortMappingProperty where
  port : Nat
  protocol : Protocol
deriving Repr, DecidableEq

/-- `CfnVirtualGateway.VirtualGatewayListenerProperty` as assembled by
the `bind` methods: the port mapping is always written; `healthCheck`
and `tls` are written as `undefined` (absent) when not supplied. -/
structure VirtualGatewayListenerProperty where
  portMapping : VirtualGatewayPortMappingProperty
  healthCheck : Option VirtualGatewayHealthCheckPolicyProperty
  tls : Option VirtualGatewayListenerTlsProperty
deriving Repr, DecidableEq

/-- `VirtualGatewayListenerConfig` (index.ts). -/
structure VirtualGatewayListenerConfig where
  listener : VirtualGatewayListenerProperty
deriving Repr, DecidableEq

/-- The instance state shared by the three concrete listener classes
(`HttpGatewayListener`, `Http2GatewayListener`, `GrpcGatewayListener`):
a fixed protocol tag, the port, and the optional health-check and TLS
configuration saved from the props. -/
structure GatewayListenerState where
  protocol : Protocol
  port : Nat
  healthCheck : Option HealthCheck
  tls : Option IListenerTlsConfig
deriving Repr, DecidableEq

/-- `HttpGatewayListenerProps` / `GrpcGatewayListenerProps` (the two
interfaces are field-for-field identical). -/
structure HttpGatewayListenerProps where
  port : Option Nat := none
  healthCheck : Option HealthCheck := none
  tls : Option IListenerTlsConfig := none
deriving Repr, DecidableEq

namespace VirtualGatewayListener

/-- `VirtualGatewayListener.httpGatewayListener(props)`: the
`HttpGatewayListener` constructor (`this.port = props.port ?
props.port : 8080`, protocol fixed to HTTP). -/
def httpGatewayListener (props : HttpGatewayListenerProps) :
    GatewayListenerState :=
  { protocol := Protocol.http
    port := jsNumOr props.port 8080
    healthCheck := props.healthCheck
    tls := props.tls }

/-- `VirtualGatewayListener.http2GatewayListener(props)`: the
`Http2GatewayListener` constructor runs the `HttpGatewayListener`
constructor and then overwrites the protocol tag with HTTP2. -/
def http2GatewayListener (props : HttpGatewayListenerProps) :
    GatewayListenerState :=
  { httpGatewayListener props with protocol := Protocol.http2 }

/-- `VirtualGatewayListener.grpcGatewayListener(props)`: the
`GrpcGatewayListener` constructor (same body as the HTTP one, protocol
fixed to GRPC). -/
def grpcGatewayListener (props : HttpGatewayListenerProps) :
    GatewayListenerState :=
  { protocol := Protocol.grpc
    port := jsNumOr props.port 8080
    healthCheck := props.healthCheck
    tls := props.tls }

/-- The common tail of the two `bind` bodies: render TLS when present
and assemble the `VirtualGatewayListenerProperty` literal.  `pmProto`
is the protocol written into the port mapping (`this.protocol` for the
HTTP family, the `Protocol.GRPC` literal for the GRPC class).  The
second component is the post-call listener state (`renderTls` mutates
the TLS config it is handed). -/
def assembleListener (l : GatewayListenerState)
    (hcRendered : Option VirtualGatewayHealthCheckPolicyProperty)
    (pmProto : Protocol) :
    VirtualGatewayListenerConfig × GatewayListenerState :=
  match l.tls with
  | some t =>
    let r := renderTls t
    ({ listener :=
         { portMapping := { port := l.port, protocol := pmProto }
           healthCheck := hcRendered
           tls := some r.1 } },
     { l with tls := some r.2 })
  | none =>
    ({ listener :=
         { portMapping := { port := l.port, protocol := pmProto }
           healthCheck := hcRendered
           tls := none } },
     l)

end VirtualGatewayListener

namespace HttpGatewayListener

/-- `HttpGatewayListener.bind` (also inherited unchanged by
`Http2GatewayListener`): port mapping from `this.port`/`this.protocol`,
`healthCheck: this.healthCheck ? this.renderHealthCheck(...) :
undefined`, `tls: this.tls ? this.renderTls(this.tls) : undefined`.
A throw inside `renderHealthCheck` propagates out of `bind`. -/
def bind (l : GatewayListenerState) :
    Except String (VirtualGatewayListenerConfig × GatewayListenerState) :=
  match l.healthCheck with
  | some hc =>
    match VirtualGatewayListener.renderHealthCheck hc l.protocol l.port with
    | .error e => .error e
    | .ok r => .ok (VirtualGatewayListener.assembleListener l (some r) l.protocol)
  | none => .ok (VirtualGatewayListener.assembleListener l none l.protocol)

end HttpGatewayListener

namespace GrpcGatewayListener

/-- `GrpcGatewayListener.bind`: identical to the HTTP family's `bind`
except that the port-mapping protocol is the literal `Protocol.GRPC`. -/
def bind (l : GatewayListenerState) :
    Except String (VirtualGatewayListenerConfig × GatewayListenerState) :=
  match l.healthCheck with
  | some hc =>
    match VirtualGatewayListener.renderHealthCheck hc l.protocol l.port with
    | .error e => .error e
    | .ok r => .ok (VirtualGatewayListener.assembleListener l (some r) Protocol.grpc)
  | none => .ok (VirtualGatewayListener.assembleListener l none Protocol.grpc)

end GrpcGatewayListener

/-! ## Gateway routes: identity resolution and grants (gateway-route.ts) -/

/-- The mesh reference a virtual gateway carries: the only field this
core reads is `meshName`. -/
structure MeshRef where
  meshName : String
deriving Repr, DecidableEq

/-- `IVirtualGateway`: the fields `gateway-route.ts` reads off a
virtual gateway (`virtualGatewayName`, `virtualGatewayArn`, `mesh`). -/
structure IVirtualGateway where
  virtualGatewayName : String
  virtualGatewayArn : String
  mesh : MeshRef
deriving Repr, DecidableEq

/-- The identity an imported `GatewayRoute` exposes (`IGatewayRoute`):
name, ARN, and the owning virtual gateway. -/
structure IGatewayRoute where
  gatewayRouteName : String
  gatewayRouteArn : String
  virtualGateway : IVirtualGateway
deriving Repr, DecidableEq

/-- `GatewayRouteAttributes` (gateway-route.ts). -/
structure GatewayRouteAttributes where
  gatewayRouteName : String
  virtualGateway : IVirtualGateway
deriving Repr, DecidableEq

/-- The ARN environment of a stack (partition/region/account), for a
scope whose stack formats ARNs in the standard way. -/
structure ArnParts where
  partition : String
  region : String
  account : String
deriving Repr, DecidableEq

namespace Stack

/-- Modelled from the spec: `cdk.Stack.formatArn` (the surrounding
platform's stack-scoped ARN formatting, out of scope of src/): the
standard `arn:partition:service:region:account:resource/resourceName`
join with the default `/` separator. -/
def formatArn (env : ArnParts) (service resource resourceName : String) :
    String :=
  "arn:" ++ env.partition ++ ":" ++ service ++ ":" ++ env.region ++ ":"
    ++ env.account ++ ":" ++ resource ++ "/" ++ resourceName

end Stack

/-- Splitting a character list at every occurrence of a separator
(structurally recursive so that concrete inputs evaluate). -/
def splitOnChar (sep : Char) : List Char → List (List Char)
  | [] => [[]]
  | c :: rest =>
    if c = sep then [] :: splitOnChar sep rest
    else
      match splitOnChar sep rest with
      | h :: t => (c :: h) :: t
      | [] => [[c]]

/-- The characters after the first occurrence of a separator, when the
separator occurs at all. -/
def dropThroughChar (sep : Char) : List Char → Option (List Char)
  | [] => none
  | c :: rest => if c = sep then some rest else dropThroughChar sep rest

namespace Stack

/-- Modelled from the spec: `cdk.Stack.parseArn(arn).resourceName` (the
platform's ARN parser, out of scope of src/): the sixth colon-separated
component is the resource part; when it contains a `/`, `resourceName`
is everything after the first `/`, else it is absent. -/
def parseArnResourceName (arn : String) : Option String :=
  match splitOnChar ':' arn.data with
  | _ :: _ :: _ :: _ :: _ :: resource :: _ =>
    match dropThroughChar '/' resource with
    | some rest => some (String.mk rest)
    | none => none
  | _ => none

end Stack

/-- Modelled from the spec: `cdk.Fn.split` on concrete strings (the
uses in this core all split on a single-character delimiter). -/
def fnSplit (sep : Char) (s : String) : List String :=
  (splitOnChar sep s.data).map String.mk

/-- Modelled from the spec: `cdk.Fn.select i` on a concrete list; out
of range degrades to the empty string (the spec's "fails silently into
an unresolved/empty name"). -/
def fnSelect (i : Nat) (l : List String) : String := l.getD i ""

namespace VirtualGateway

/-- Modelled from the spec: `VirtualGateway.fromVirtualGatewayArn`
(`virtual-gateway.ts`, not under src/) resolves an owner identity from
an ARN: it keeps the ARN it is given and parses the mesh name and the
virtual-gateway name from fixed slash-separated positions of the ARN's
resource-name segment. -/
def fromVirtualGatewayArn (virtualGatewayArn : String) : IVirtualGateway :=
  let parts := fnSplit '/' ((Stack.parseArnResourceName virtualGatewayArn).getD "")
  { virtualGatewayName := fnSelect 2 parts
    virtualGatewayArn := virtualGatewayArn
    mesh := { meshName := fnSelect 0 parts } }

end VirtualGateway

namespace GatewayRoute

/-- `GatewayRoute.fromGatewayRouteArn(scope, id, arn)`: keeps the given
ARN, takes the name from index 4 of the ARN's slash-split resource-name
segment, and resolves the owning virtual gateway by handing the gateway
route's own ARN to `VirtualGateway.fromVirtualGatewayArn`. -/
def fromGatewayRouteArn (gatewayRouteArn : String) : IGatewayRoute :=
  { gatewayRouteArn := gatewayRouteArn
    gatewayRouteName :=
      fnSelect 4 (fnSplit '/' ((Stack.parseArnResourceName gatewayRouteArn).getD ""))
    virtualGateway := VirtualGateway.fromVirtualGatewayArn gatewayRouteArn }

/-- `GatewayRoute.fromGatewayRouteAttributes(scope, id, attrs)`: name
from the attributes, ARN formatted with service `appmesh` and resource
`mesh/{meshName}/virtualGateway/{virtualGatewayName}/gatewayRoute`
(resource name = the gateway route name), owner = the caller-supplied
virtual gateway. -/
def fromGatewayRouteAttributes (env : ArnParts)
    (attrs : GatewayRouteAttributes) : IGatewayRoute :=
  { gatewayRouteName := attrs.gatewayRouteName
    gatewayRouteArn :=
      Stack.formatArn env "appmesh"
        ("mesh/" ++ attrs.virtualGateway.mesh.meshName ++ "/virtualGateway/"
          ++ attrs.virtualGateway.virtualGatewayName ++ "/gatewayRoute")
        attrs.gatewayRouteName
    virtualGateway := attrs.virtualGateway }

end GatewayRoute

/-- The result of `iam.Grant.addToPrincipal` as this core populates it:
the action list and the resource ARNs (the grantee plays no role in the
claims). -/
structure Grant where
  actions : List String
  resourceArns : List String
deriving Repr, DecidableEq

namespace GatewayRouteBase

/-- `GatewayRouteBase.grant(grantee, ...actions)`: a grant over the
given actions scoped to this route's ARN. -/
def grant (route : IGatewayRoute) (actions : List String) : Grant :=
  { actions := actions
    resourceArns := [route.gatewayRouteArn] }

/-- `GatewayRouteBase.grantRead`. -/
def grantRead (route : IGatewayRoute) : Grant :=
  grant route
    ["appmesh:DescribeGatewayRoute",
     "appmesh:ListGatewayRoute"]

/-- `GatewayRouteBase.grantWrite`. -/
def grantWrite (route : IGatewayRoute) : Grant :=
  grant route
    ["appmesh:CreateGatewayRoute",
     "appmesh:UpdateGatewayRoute",
     "appmesh:DeleteGatewayRoute",
     "appmesh:TagResource",
     "appmesh:UntagResource"]

/-- The full declared action list for the gateway-route resource kind
(the union the spec describes: read = Describe/List, write =
Create/Update/Delete/Tag/Untag). -/
def fullGatewayRouteActionList : List String :=
  ["appmesh:DescribeGatewayRoute",
   "appmesh:ListGatewayRoute",
   "appmesh:CreateGatewayRoute",
   "appmesh:UpdateGatewayRoute",
   "appmesh:DeleteGatewayRoute",
   "appmesh:TagResource",
   "appmesh:UntagResource"]

end GatewayRouteBase

/-- The record the all-default health check renders on an HTTP
listener at port 8080 (used as the C4 witness input). -/
def c4HttpRecord : VirtualGatewayHealthCheckPolicyProperty :=
  { healthyThreshold := 2, intervalMillis := 5000, path := some "/"
    port := 8080, protocol := Protocol.http, timeoutMillis := 2000
    unhealthyThreshold := 2 }

/-- The record the all-default health check renders on a GRPC listener
at port 8080 (used as the C4 witness input): no path. -/
def c4GrpcRecord : VirtualGatewayHealthCheckPolicyProperty :=
  { healthyThreshold := 2, intervalMillis := 5000, path := none
    port := 8080, protocol := Protocol.grpc, timeoutMillis := 2000
    unhealthyThreshold := 2 }

/-- The concrete certificate ARN used in the C1 and C10 inputs. -/
def c1arn : String := "arn:aws:acm:us-east-1:123456789012:certificate/cert-1"

/-- The C1 failing input: a TLS config holding the raw certificate
object (`CfnCertificate` with `attrArn = c1arn`). -/
def c1rawInput : IListenerTlsConfig :=
  { certificate := .cfnCertificate c1arn, mode := TlsMode.strict }

/-- The C1 comparison input: a TLS config holding the
certificate-reference form built from an `ICertificate` exposing the
same ARN. -/
def c1refInput : IListenerTlsConfig :=
  { certificate :=
      .tlsCert (.acm { acmCertificate := .cert { certificateArn := c1arn } })
    mode := TlsMode.strict }

/-- The TLS config used as the C10 failing input: its certificate is a
raw `CfnCertificate` object (same shape as `c1rawInput`). -/
def c10tls : IListenerTlsConfig :=
  { certificate := .cfnCertificate c1arn, mode := TlsMode.strict }

/-- The listener holding `c10tls` (HTTP, port 8080, no health check). -/
def c10listener : GatewayListenerState :=
  { protocol := Protocol.http, port := 8080, healthCheck := none
    tls := some c10tls }

/-- The state of the caller-supplied TLS config after `bind` returns:
its `certificate` field has been overwritten with the wrapped
certificate-reference object. -/
def c10tlsAfter : IListenerTlsConfig :=
  { certificate := .tlsCert (.acm { acmCertificate := .str c1arn })
    mode := TlsMode.strict }

/-- The listener state after `bind` returns. -/
def c10listenerAfter : GatewayListenerState :=
  { protocol := Protocol.http, port := 8080, healthCheck := none
    tls := some c10tlsAfter }

/-- The config `bind` renders for `c10listener`. -/
def c10config : VirtualGatewayListenerConfig :=
  { listener :=
      { portMapping := { port := 8080, protocol := Protocol.http }
        healthCheck := none
        tls := some { certificate := { acm := some { certificateArn := none }
                                       file := none }
                      mode := TlsMode.strict } } }

/-- The TLS config used in the C10 witness: a certificate-reference
certificate, which `renderTls` leaves untouched. -/
def c10refTls : IListenerTlsConfig :=
  { certificate :=
      .tlsCert (.acm { acmCertificate := .cert { certificateArn := c1arn } })
    mode := TlsMode.permissive }

/-- The result `bind` returns for the TLS-free listener built from
empty props (used in the C10 witness). -/
def c10plainRes : VirtualGatewayListenerConfig × GatewayListenerState :=
  ({ listener :=
       { portMapping := { port := 8080, protocol := Protocol.http }
         healthCheck := none, tls := none } },
   VirtualGatewayListener.httpGatewayListener {})

/-- The concrete ARN environment used in the C6 and C9 inputs. -/
def c6env : ArnParts :=
  { partition := "aws", region := "us-east-1", account := "123456789012" }

/-- The concrete imported owner used in the C6 input: mesh "m1",
virtual gateway "vg1". -/
def c6vg : IVirtualGateway :=
  { virtualGatewayName := "vg1"
    virtualGatewayArn :=
      "arn:aws:appmesh:us-east-1:123456789012:mesh/m1/virtualGateway/vg1"
    mesh := { meshName := "m1" } }

/-- The concrete attributes used in the C6 input. -/
def c6attrs : GatewayRouteAttributes :=
  { gatewayRouteName := "r1", virtualGateway := c6vg }

/-- The concrete gateway-route ARN used in the C9 input. -/
def c9arn : String :=
  "arn:aws:appmesh:us-east-1:123456789012:mesh/m1/virtualGateway/vg1/gatewayRoute/r1"

/-! ## Theorems -/

/-- C3: for every health-check input whose protocol is TCP, rendering
the health check on any gateway listener fails with the configuration
error "TCP health checks are not permitted for gateway listeners"; and
no gateway listener variant (HTTP, HTTP2 or GRPC) ever renders a
health-check record whose protocol is TCP. -/
theorem C3_tcp_health_check_rejected :
    (∀ (hc : HealthCheck) (p : Protocol) (port : Nat),
        hc.protocol = some Protocol.tcp →
        VirtualGatewayListener.renderHealthCheck hc p port
          = .error "TCP health checks are not permitted for gateway listeners")
    ∧ (∀ (hc : HealthCheck) (p : Protocol) (port : Nat)
        (r : VirtualGatewayHealthCheckPolicyProperty),
        (p = Protocol.http ∨ p = Protocol.http2 ∨ p = Protocol.grpc) →
        VirtualGatewayListener.renderHealthCheck hc p port = .ok r →
        r.protocol ≠ Protocol.tcp) := by
  constructor
  · intro hc p port h
    simp [VirtualGatewayListener.renderHealthCheck, h]
  · intro hc p port r hp h
    unfold VirtualGatewayListener.renderHealthCheck at h
    split at h
    · exact absurd h (by simp)
    · split at h
      · exact absurd h (by simp)
      · rename_i h1 _
        have hr := (Except.ok.injEq _ _).mp h
        cases hcp : hc.protocol with
        | none =>
          rw [← hr, hcp]
          rcases hp with h' | h' | h' <;> (subst h'; simp)
        | some q =>
          rw [← hr, hcp]
          simp only [Option.getD_some]
          intro hq
          exact h1 (by rw [hcp, hq])

/-- C3 witness: the TCP rejection at a concrete input. -/
theorem C3_witness :
    VirtualGatewayListener.renderHealthCheck
      { protocol := some Protocol.tcp } Protocol.http 8080
      = .error "TCP health checks are not permitted for gateway listeners" :=
  C3_tcp_health_check_rejected.1 { protocol := some Protocol.tcp }
    Protocol.http 8080 rfl

/-- C2 counterexample: a GRPC health check whose `path` field is set to
the empty string is *not* rejected - JS truthiness (`hc.path` in
`hc.protocol === Protocol.GRPC && hc.path`) treats `""` as unset, so
rendering succeeds instead of failing with the configuration error. -/
theorem C2_counterexample :
    ({ protocol := some Protocol.grpc, path := some "" : HealthCheck }).protocol
        = some Protocol.grpc
    ∧ ({ protocol := some Protocol.grpc, path := some "" : HealthCheck }).path.isSome
        = true
    ∧ (VirtualGatewayListener.renderHealthCheck
        { protocol := some Protocol.grpc, path := some "" }
        Protocol.grpc 8080).isOk = true := by
  refine ⟨rfl, rfl, ?_⟩
  decide

/-- C2 (amended): for every health-check input whose protocol is GRPC
and whose path is set to a *non-empty* string, rendering the health
check on any gateway listener fails with the configuration error
"The path property cannot be set with Protocol.GRPC". -/
theorem C2_grpc_path_rejected (hc : HealthCheck) (p : Protocol)
    (port : Nat) (s : String)
    (h1 : hc.protocol = some Protocol.grpc) (h2 : hc.path = some s)
    (h3 : s ≠ "") :
    VirtualGatewayListener.renderHealthCheck hc p port
      = .error "The path property cannot be set with Protocol.GRPC" := by
  unfold VirtualGatewayListener.renderHealthCheck
  rw [h1]
  simp [jsStrTruthy, h2, h3]

/-- C2 witness: the amended rejection at a concrete input. -/
theorem C2_witness :
    VirtualGatewayListener.renderHealthCheck
      { protocol := some Protocol.grpc, path := some "/health" }
      Protocol.grpc 8080
      = .error "The path property cannot be set with Protocol.GRPC" :=
  C2_grpc_path_rejected
    { protocol := some Protocol.grpc, path := some "/health" }
    Protocol.grpc 8080 "/health" rfl rfl (by decide)

/-- C4: for every health-check input rendered successfully by a gateway
listener, the defaults are applied as the claim states: protocol
defaults to the listener's protocol when unset, port to the listener's
port when unset, path to "/" exactly when the effective protocol is
HTTP or HTTP2 (absent otherwise) when unset, both thresholds to 2,
interval to 5000 ms and timeout to 2000 ms. -/
theorem C4_health_check_defaults (hc : HealthCheck) (p : Protocol)
    (port : Nat) (r : VirtualGatewayHealthCheckPolicyProperty)
    (h : VirtualGatewayListener.renderHealthCheck hc p port = .ok r) :
    (hc.protocol = none → r.protocol = p)
    ∧ (hc.port = none → r.port = port)
    ∧ (hc.path = none →
        r.path =
          if hc.protocol.getD p = Protocol.http
              ∨ hc.protocol.getD p = Protocol.http2 then
            some "/"
          else none)
    ∧ (hc.healthyThreshold = none → r.healthyThreshold = 2)
    ∧ (hc.unhealthyThreshold = none → r.unhealthyThreshold = 2)
    ∧ (hc.interval = none → r.intervalMillis = 5000)
    ∧ (hc.timeout = none → r.timeoutMillis = 2000) := by
  unfold VirtualGatewayListener.renderHealthCheck at h
  split at h
  · exact absurd h (by simp)
  · split at h
    · exact absurd h (by simp)
    · have hr := (Except.ok.injEq _ _).mp h
      subst hr
      refine ⟨?_, ?_, ?_, ?_, ?_, ?_, ?_⟩
      · intro hn; simp [hn]
      · intro hn; simp [hn, jsNumOr]
      · intro hn; simp [hn, jsStrTruthy]
      · intro hn; simp [hn, jsNumOr]
      · intro hn; simp [hn, jsNumOr]
      · intro hn; simp [hn, Duration.seconds, Duration.toMilliseconds]
      · intro hn; simp [hn, Duration.seconds, Duration.toMilliseconds]

/-- C4 witness: the all-default health check on an HTTP listener
renders protocol HTTP, port 8080, path "/", thresholds 2, interval
5000 ms, timeout 2000 ms; on a GRPC listener the path is absent. -/
theorem C4_witness :
    VirtualGatewayListener.renderHealthCheck {} Protocol.http 8080
        = .ok c4HttpRecord
    ∧ c4HttpRecord.protocol = Protocol.http ∧ c4HttpRecord.port = 8080
    ∧ c4HttpRecord.path = some "/" ∧ c4HttpRecord.healthyThreshold = 2
    ∧ c4HttpRecord.unhealthyThreshold = 2
    ∧ c4HttpRecord.intervalMillis = 5000 ∧ c4HttpRecord.timeoutMillis = 2000
    ∧ VirtualGatewayListener.renderHealthCheck {} Protocol.grpc 8080
        = .ok c4GrpcRecord
    ∧ c4GrpcRecord.path = none := by
  obtain ⟨c1, c2, c3, c4, c5, c6, c7⟩ :=
    C4_health_check_defaults {} Protocol.http 8080 c4HttpRecord (by rfl)
  obtain ⟨_, _, g3, _, _, _, _⟩ :=
    C4_health_check_defaults {} Protocol.grpc 8080 c4GrpcRecord (by rfl)
  refine ⟨by rfl, c1 rfl, c2 rfl, ?_, c4 rfl, c5 rfl, c6 rfl, c7 rfl,
    by rfl, ?_⟩
  · rw [c3 rfl]; decide
  · rw [g3 rfl]; decide

/-- Helper: what `assembleListener` writes - the health-check argument
verbatim, the given port-mapping protocol, and a TLS field that is
absent exactly when the listener holds no TLS config. -/
theorem assembleListener_parts (l : GatewayListenerState)
    (hcR : Option VirtualGatewayHealthCheckPolicyProperty) (pm : Protocol) :
    (VirtualGatewayListener.assembleListener l hcR pm).1.listener.healthCheck
        = hcR
    ∧ (VirtualGatewayListener.assembleListener l hcR pm).1.listener.portMapping
        = { port := l.port, protocol := pm }
    ∧ ((VirtualGatewayListener.assembleListener l hcR pm).1.listener.tls = none
        ↔ l.tls = none) := by
  cases h : l.tls <;> simp [VirtualGatewayListener.assembleListener, h]

/-- Helper: `assembleListener` leaves the listener state unchanged when
no TLS config is present. -/
theorem assembleListener_snd_none (l : GatewayListenerState)
    (hcR : Option VirtualGatewayHealthCheckPolicyProperty) (pm : Protocol)
    (h : l.tls = none) :
    (VirtualGatewayListener.assembleListener l hcR pm).2 = l := by
  simp [VirtualGatewayListener.assembleListener, h]

/-- Helper: with a TLS config present, `assembleListener`'s post-state
carries the post-`renderTls` state of that config. -/
theorem assembleListener_snd_some (l : GatewayListenerState)
    (t : IListenerTlsConfig)
    (hcR : Option VirtualGatewayHealthCheckPolicyProperty) (pm : Protocol)
    (h : l.tls = some t) :
    (VirtualGatewayListener.assembleListener l hcR pm).2
      = { l with tls := some (VirtualGatewayListener.renderTls t).2 } := by
  simp [VirtualGatewayListener.assembleListener, h]

/-- C5: for every gateway listener variant, a successful `bind` omits
the `healthCheck` field when no health check was supplied and the `tls`
field when no TLS config was supplied, while the port mapping is always
present; with neither supplied, `bind` succeeds and returns exactly the
port-mapping-only record (`Http2GatewayListener` inherits the HTTP
`bind` unchanged, so the first part covers it with
`l.protocol = Protocol.http2`). -/
theorem C5_optional_fields_omitted (l : GatewayListenerState) :
    (∀ res, HttpGatewayListener.bind l = .ok res →
      (l.healthCheck = none → res.1.listener.healthCheck = none)
      ∧ (l.tls = none → res.1.listener.tls = none)
      ∧ res.1.listener.portMapping = { port := l.port, protocol := l.protocol })
    ∧ (∀ res, GrpcGatewayListener.bind l = .ok res →
      (l.healthCheck = none → res.1.listener.healthCheck = none)
      ∧ (l.tls = none → res.1.listener.tls = none)
      ∧ res.1.listener.portMapping = { port := l.port, protocol := Protocol.grpc })
    ∧ (l.healthCheck = none → l.tls = none →
      HttpGatewayListener.bind l
        = .ok ({ listener :=
                   { portMapping := { port := l.port, protocol := l.protocol }
                     healthCheck := none, tls := none } }, l)
      ∧ GrpcGatewayListener.bind l
        = .ok ({ listener :=
                   { portMapping := { port := l.port, protocol := Protocol.grpc }
                     healthCheck := none, tls := none } }, l)) := by
  refine ⟨?_, ?_, ?_⟩
  · intro res h
    unfold HttpGatewayListener.bind at h
    split at h
    · rename_i hc hhc
      split at h
      · exact absurd h (by simp)
      · rename_i r hr
        have hx := (Except.ok.injEq _ _).mp h
        subst hx
        obtain ⟨h1, h2, h3⟩ := assembleListener_parts l (some r) l.protocol
        refine ⟨?_, fun hn => h3.mpr hn, h2⟩
        intro hn
        rw [hhc] at hn
        cases hn
    · have hx := (Except.ok.injEq _ _).mp h
      subst hx
      obtain ⟨h1, h2, h3⟩ := assembleListener_parts l none l.protocol
      exact ⟨fun _ => h1, fun hn => h3.mpr hn, h2⟩
  · intro res h
    unfold GrpcGatewayListener.bind at h
    split at h
    · rename_i hc hhc
      split at h
      · exact absurd h (by simp)
      · rename_i r hr
        have hx := (Except.ok.injEq _ _).mp h
        subst hx
        obtain ⟨h1, h2, h3⟩ := assembleListener_parts l (some r) Protocol.grpc
        refine ⟨?_, fun hn => h3.mpr hn, h2⟩
        intro hn
        rw [hhc] at hn
        cases hn
    · have hx := (Except.ok.injEq _ _).mp h
      subst hx
      obtain ⟨h1, h2, h3⟩ := assembleListener_parts l none Protocol.grpc
      exact ⟨fun _ => h1, fun hn => h3.mpr hn, h2⟩
  · intro hhc htls
    constructor
    · unfold HttpGatewayListener.bind
      rw [hhc]
      simp [VirtualGatewayListener.assembleListener, htls]
    · unfold GrpcGatewayListener.bind
      rw [hhc]
      simp [VirtualGatewayListener.assembleListener, htls]

/-- C5 witness: the HTTP and GRPC gateway listeners built from empty
props bind to a port-mapping-only record (port 8080, no health check,
no TLS). -/
theorem C5_witness :
    (VirtualGatewayListener.httpGatewayListener {}).healthCheck = none
    ∧ (VirtualGatewayListener.httpGatewayListener {}).tls = none
    ∧ HttpGatewayListener.bind (VirtualGatewayListener.httpGatewayListener {})
        = .ok ({ listener :=
                   { portMapping := { port := 8080, protocol := Protocol.http }
                     healthCheck := none, tls := none } },
               VirtualGatewayListener.httpGatewayListener {})
    ∧ GrpcGatewayListener.bind (VirtualGatewayListener.grpcGatewayListener {})
        = .ok ({ listener :=
                   { portMapping := { port := 8080, protocol := Protocol.grpc }
                     healthCheck := none, tls := none } },
               VirtualGatewayListener.grpcGatewayListener {}) := by
  refine ⟨rfl, rfl, ?_, ?_⟩
  · exact ((C5_optional_fields_omitted
      (VirtualGatewayListener.httpGatewayListener {})).2.2 rfl rfl).1
  · exact ((C5_optional_fields_omitted
      (VirtualGatewayListener.grpcGatewayListener {})).2.2 rfl rfl).2

/-- C1: evaluation at the failing input.  Binding a gateway listener's
TLS config holding a raw certificate object with `attrArn = c1arn`
does *not* render `{acm: {certificateArn: c1arn}}`: `renderTls` wraps
the raw ARN *string* as the `acmCertificate` of the
certificate-reference class, whose `bind` then reads `.certificateArn`
off that string - JS `undefined` - so the rendered ARN is absent,
while binding the certificate-reference form built from an
`ICertificate` with the same ARN renders the ARN itself.  The two
paths therefore render different certificate shapes. -/
theorem C1_acm_roundtrip_divergence :
    (VirtualGatewayListener.renderTls c1rawInput).1.certificate
      = { acm := some { certificateArn := none }, file := none }
    ∧ (VirtualGatewayListener.renderTls c1refInput).1.certificate
      = { acm := some { certificateArn := some c1arn }, file := none }
    ∧ (VirtualGatewayListener.renderTls c1rawInput).1.certificate
      ≠ (VirtualGatewayListener.renderTls c1refInput).1.certificate := by
  refine ⟨rfl, rfl, ?_⟩
  simp [VirtualGatewayListener.renderTls, c1rawInput, c1refInput,
    TlsCertificate.bind, AcmCertValue.certificateArnProp, c1arn]

/-- C8: every `TlsCertificate.bind()` call produces the gateway-listener
shape and the node-listener shape with identical underlying certificate
data - the same optional `acm` component (hence the same
`certificateArn`) and the same optional `file` component (hence the
same `certificateChain` and `privateKey`). -/
theorem C8_single_bind_both_shapes (c : TlsCertificate) :
    c.bind.virtualGatewayListenerTlsCertificate.acm
        = c.bind.virtualNodeListenerTlsCertificate.acm
    ∧ c.bind.virtualGatewayListenerTlsCertificate.file
        = c.bind.virtualNodeListenerTlsCertificate.file := by
  cases c <;> exact ⟨rfl, rfl⟩

/-- C10 counterexample: binding a listener whose TLS config holds a raw
certificate object mutates that caller-supplied config - after `bind`
returns, its `certificate` field no longer holds the value it held
before the call. -/
theorem C10_counterexample :
    HttpGatewayListener.bind c10listener = .ok (c10config, c10listenerAfter)
    ∧ c10listenerAfter.tls ≠ c10listener.tls
    ∧ c10tlsAfter.certificate ≠ c10tls.certificate := by
  refine ⟨rfl, ?_, ?_⟩
  · simp [c10listenerAfter, c10listener, c10tlsAfter, c10tls]
  · simp [c10tlsAfter, c10tls]

/-- C10 (amended): binding never mutates the health-check input, and
leaves the caller-supplied TLS configuration unchanged except in one
case: when the TLS config holds a raw certificate object, `renderTls`
overwrites its `certificate` field with the wrapped
certificate-reference form of the same ARN (the mode is kept). -/
theorem C10_bind_mutation :
    (∀ t : IListenerTlsConfig,
        VirtualGatewayListener.isAcmCertificate t.certificate = false →
        (VirtualGatewayListener.renderTls t).2 = t)
    ∧ (∀ (t : IListenerTlsConfig) (arn : String),
        t.certificate = .cfnCertificate arn →
        (VirtualGatewayListener.renderTls t).2
          = { certificate := .tlsCert (.acm { acmCertificate := .str arn })
              mode := t.mode })
    ∧ (∀ (l : GatewayListenerState) (t : IListenerTlsConfig) res,
        l.tls = some t →
        VirtualGatewayListener.isAcmCertificate t.certificate = false →
        HttpGatewayListener.bind l = .ok res → res.2 = l)
    ∧ (∀ (l : GatewayListenerState) res, l.tls = none →
        HttpGatewayListener.bind l = .ok res → res.2 = l)
    ∧ (∀ (l : GatewayListenerState) (t : IListenerTlsConfig) res,
        l.tls = some t →
        VirtualGatewayListener.isAcmCertificate t.certificate = false →
        GrpcGatewayListener.bind l = .ok res → res.2 = l)
    ∧ (∀ (l : GatewayListenerState) res, l.tls = none →
        GrpcGatewayListener.bind l = .ok res → res.2 = l) := by
  have hTls : ∀ t : IListenerTlsConfig,
      VirtualGatewayListener.isAcmCertificate t.certificate = false →
      (VirtualGatewayListener.renderTls t).2 = t := by
    intro t ht
    unfold VirtualGatewayListener.renderTls
    cases hc : t.certificate with
    | tlsCert c => simp [hc]
    | cfnCertificate arn =>
      rw [hc] at ht
      exact absurd ht (by simp [VirtualGatewayListener.isAcmCertificate])
  have hKeep : ∀ (l : GatewayListenerState) (t : IListenerTlsConfig),
      l.tls = some t →
      VirtualGatewayListener.isAcmCertificate t.certificate = false →
      ∀ (hcR : Option VirtualGatewayHealthCheckPolicyProperty)
        (pm : Protocol),
      (VirtualGatewayListener.assembleListener l hcR pm).2 = l := by
    intro l t hl ht hcR pm
    rw [assembleListener_snd_some l t hcR pm hl, hTls t ht, ← hl]
  refine ⟨hTls, ?_, ?_, ?_, ?_, ?_⟩
  · intro t arn ht
    unfold VirtualGatewayListener.renderTls
    rw [ht]
  · intro l t res hl ht h
    unfold HttpGatewayListener.bind at h
    split at h
    · split at h
      · exact absurd h (by simp)
      · have hx := (Except.ok.injEq _ _).mp h
        subst hx
        exact hKeep l t hl ht _ _
    · have hx := (Except.ok.injEq _ _).mp h
      subst hx
      exact hKeep l t hl ht _ _
  · intro l res hl h
    unfold HttpGatewayListener.bind at h
    split at h
    · split at h
      · exact absurd h (by simp)
      · have hx := (Except.ok.injEq _ _).mp h
        subst hx
        exact assembleListener_snd_none l _ _ hl
    · have hx := (Except.ok.injEq _ _).mp h
      subst hx
      exact assembleListener_snd_none l none _ hl
  · intro l t res hl ht h
    unfold GrpcGatewayListener.bind at h
    split at h
    · split at h
      · exact absurd h (by simp)
      · have hx := (Except.ok.injEq _ _).mp h
        subst hx
        exact hKeep l t hl ht _ _
    · have hx := (Except.ok.injEq _ _).mp h
      subst hx
      exact hKeep l t hl ht _ _
  · intro l res hl h
    unfold GrpcGatewayListener.bind at h
    split at h
    · split at h
      · exact absurd h (by simp)
      · have hx := (Except.ok.injEq _ _).mp h
        subst hx
        exact assembleListener_snd_none l _ _ hl
    · have hx := (Except.ok.injEq _ _).mp h
      subst hx
      exact assembleListener_snd_none l none _ hl

/-- C10 witness: the amended non-mutation facts at concrete inputs - a
certificate-reference TLS config is returned unchanged, a raw
certificate object is rewrapped with the same ARN and mode, and a
TLS-free listener binds with its state unchanged. -/
theorem C10_witness :
    (VirtualGatewayListener.renderTls c10refTls).2 = c10refTls
    ∧ (VirtualGatewayListener.renderTls c10tls).2
        = { certificate := .tlsCert (.acm { acmCertificate := .str c1arn })
            mode := c10tls.mode }
    ∧ c10plainRes.2 = VirtualGatewayListener.httpGatewayListener {} := by
  refine ⟨C10_bind_mutation.1 c10refTls rfl,
    C10_bind_mutation.2.1 c10tls c1arn rfl,
    C10_bind_mutation.2.2.2.1 (VirtualGatewayListener.httpGatewayListener {})
      c10plainRes rfl rfl⟩

/-- C6 counterexample: with mesh "m1", virtual gateway "vg1" and route
name "r1", `fromGatewayRouteAttributes` formats the resource path
`mesh/m1/virtualGateway/vg1/gatewayRoute/r1` - the owner kind in the
path is `virtualGateway`, not the `virtualRouter` the claim states. -/
theorem C6_counterexample :
    (GatewayRoute.fromGatewayRouteAttributes c6env c6attrs).gatewayRouteArn
      = "arn:aws:appmesh:us-east-1:123456789012:mesh/m1/virtualGateway/vg1/gatewayRoute/r1"
    ∧ (GatewayRoute.fromGatewayRouteAttributes c6env c6attrs).gatewayRouteArn
      ≠ "arn:aws:appmesh:us-east-1:123456789012:mesh/m1/virtualRouter/vg1/gatewayRoute/r1" := by
  refine ⟨rfl, ?_⟩
  decide

/-- C6 (amended): for every ARN environment and attributes,
`fromGatewayRouteAttributes` yields an identity whose name is the given
route name and whose ARN is the standard join with resource path
`mesh/{meshName}/virtualGateway/{virtualGatewayName}/gatewayRoute/{name}`
(the owner kind in the template is `virtualGateway`). -/
theorem C6_from_attributes_arn (env : ArnParts)
    (attrs : GatewayRouteAttributes) :
    (GatewayRoute.fromGatewayRouteAttributes env attrs).gatewayRouteName
      = attrs.gatewayRouteName
    ∧ (GatewayRoute.fromGatewayRouteAttributes env attrs).gatewayRouteArn
      = "arn:" ++ env.partition ++ ":appmesh:" ++ env.region ++ ":"
        ++ env.account ++ ":" ++ "mesh/" ++ attrs.virtualGateway.mesh.meshName
        ++ "/virtualGateway/" ++ attrs.virtualGateway.virtualGatewayName
        ++ "/gatewayRoute/" ++ attrs.gatewayRouteName := by
  constructor
  · rfl
  · apply String.ext
    simp [GatewayRoute.fromGatewayRouteAttributes, Stack.formatArn,
      String.data_append, List.append_assoc]

/-- C7: `grantRead` and `grantWrite` on the same gateway-route identity
have disjoint action sets, their concatenation is exactly the full
declared action list for the gateway-route resource kind, and both
grants are scoped to exactly that identity's ARN. -/
theorem C7_grant_actions (route : IGatewayRoute) :
    (∀ a, a ∈ (GatewayRouteBase.grantRead route).actions →
        a ∉ (GatewayRouteBase.grantWrite route).actions)
    ∧ (GatewayRouteBase.grantRead route).actions
        ++ (GatewayRouteBase.grantWrite route).actions
      = GatewayRouteBase.fullGatewayRouteActionList
    ∧ (GatewayRouteBase.grantRead route).resourceArns
      = [route.gatewayRouteArn]
    ∧ (GatewayRouteBase.grantWrite route).resourceArns
      = [route.gatewayRouteArn] := by
  refine ⟨?_, rfl, rfl, rfl⟩
  intro a ha hb
  simp [GatewayRouteBase.grantRead, GatewayRouteBase.grantWrite,
    GatewayRouteBase.grant] at ha hb
  rcases ha with h | h <;> subst h <;> simp_all

/-- C9 counterexample: `fromGatewayRouteArn` derives the identity's
owner from the resource's own ARN - the resolved virtual gateway's ARN
*is* the gateway route's ARN (its name and mesh are parsed from that
same ARN), contradicting the claim that no identity derives its own
owner from the resource's own ARN. -/
theorem C9_counterexample :
    (GatewayRoute.fromGatewayRouteArn c9arn).virtualGateway.virtualGatewayArn
      = c9arn
    ∧ (GatewayRoute.fromGatewayRouteArn c9arn).virtualGateway.virtualGatewayName
      = "vg1"
    ∧ (GatewayRoute.fromGatewayRouteArn c9arn).virtualGateway.mesh.meshName
      = "m1"
    ∧ (GatewayRoute.fromGatewayRouteArn c9arn).gatewayRouteName = "r1" := by
  exact ⟨rfl, by decide, by decide, by decide⟩

/-- C9 (amended): `fromGatewayRouteAttributes` hands the caller-supplied
owner through unchanged; `fromGatewayRouteArn` newly resolves an owner
object, deriving it from the gateway route's own ARN (the owner keeps
that very ARN). -/
theorem C9_owner_resolution :
    (∀ (env : ArnParts) (attrs : GatewayRouteAttributes),
        (GatewayRoute.fromGatewayRouteAttributes env attrs).virtualGateway
          = attrs.virtualGateway)
    ∧ (∀ arn : String,
        (GatewayRoute.fromGatewayRouteArn arn).virtualGateway.virtualGatewayArn
          = arn) := by
  exact ⟨fun _ _ => rfl, fun _ => rfl⟩
